import Mathlib

/-!
Verification of the daily-report automation script (scripts/run.py).

The script drives a browser session: it applies filter controls, submits the
report form, polls for readiness, and downloads a PDF artifact.  The
definitions below are a shallow embedding of the functions named in the
claims; browser effects are abstracted into explicit environment records
(outcomes of clicks, response times, observed page states per polling tick),
and each Lean function mirrors the control flow of the corresponding Python
function.
-/

namespace DailyReport

/-- Acquisition strategies named by the design document.  The code in
`click_and_wait_download` (run.py lines 99-128) implements only the first
two; the remaining three appear nowhere in run.py. -/
inductive Strategy
  | DirectDownload
  | PopupWindow
  | NetworkReplay
  | DomRender
  | ScreenshotRender
deriving DecidableEq

/-- Environment of one `click_and_wait_download` call (run.py lines 99-128):
whether `expect_download` plus `save_as` succeeds, whether `expect_popup`
yields a popup, whether the popup contains a pdf-like link
(`link.count() > 0`), and whether the download from that link succeeds. -/
structure DownloadEnv where
  directOk : Bool
  popupOpens : Bool
  popupHasLink : Bool
  popupDlOk : Bool
deriving DecidableEq

/-- Result of `click_and_wait_download` (run.py lines 99-128): the direct
download path is tried first; on any exception the popup path is tried; it
returns False when the popup does not open, has no link, or its download
fails. -/
def click_and_wait_download (e : DownloadEnv) : Bool :=
  if e.directOk then true
  else if e.popupOpens && e.popupHasLink && e.popupDlOk then true
  else false

/-- Strategies actually attempted by one `click_and_wait_download` call:
DirectDownload always, PopupWindow exactly when the direct path failed
(run.py lines 101-111).  No other strategy occurs in the code. -/
def strategiesAttempted (e : DownloadEnv) : List Strategy :=
  if e.directOk then [Strategy.DirectDownload]
  else [Strategy.DirectDownload, Strategy.PopupWindow]

/-- Outcome of one download attempt inside
`download_report_pdf_with_checks`: `fail` when `click_and_wait_download`
returned False; `saved sz` when it returned True, where `sz` is the size
reported by `Path(save_path).stat()` and `none` models the
`FileNotFoundError` branch (run.py line 534). -/
inductive DlOutcome
  | fail
  | saved (size : Option Nat)
deriving DecidableEq

/-- Ties a `click_and_wait_download` environment to the `DlOutcome` consumed
by `download_report_pdf_with_checks`: the size is observed only when the
click reported success. -/
def attemptOutcome (e : DownloadEnv) (sizeAfter : Option Nat) : DlOutcome :=
  if click_and_wait_download e then DlOutcome.saved sizeAfter else DlOutcome.fail

/-- Minimum accepted artifact size, `min_bytes = 7000` (run.py line 507). -/
def min_bytes : Nat := 7000

/-- Result of `download_report_pdf_with_checks` (run.py lines 507-539) over
the outcomes of its at most three `click_and_wait_download` attempts:
attempt 1 failing returns False; a `FileNotFoundError` on the first size
check triggers one unconditional retry whose size is NOT checked; a
too-small first file triggers one retry whose size is checked, except that a
`FileNotFoundError` on the second size check again triggers an unchecked
retry. -/
def download_report_pdf_with_checks : DlOutcome → DlOutcome → DlOutcome → Bool
  | DlOutcome.fail, _, _ => false
  | DlOutcome.saved none, a2, _ =>
    match a2 with
    | DlOutcome.fail => false
    | DlOutcome.saved _ => true
  | DlOutcome.saved (some s), a2, a3 =>
    if s < min_bytes then
      match a2 with
      | DlOutcome.fail => false
      | DlOutcome.saved none =>
        match a3 with
        | DlOutcome.fail => false
        | DlOutcome.saved _ => true
      | DlOutcome.saved (some s2) => decide (min_bytes ≤ s2)
    else true

/-- Size of the file standing at `save_path` when
`download_report_pdf_with_checks` returns True (`none` when it returns False
or when the accepting attempt left no observable size). -/
def finalSize : DlOutcome → DlOutcome → DlOutcome → Option Nat
  | DlOutcome.fail, _, _ => none
  | DlOutcome.saved none, a2, _ =>
    match a2 with
    | DlOutcome.fail => none
    | DlOutcome.saved sz => sz
  | DlOutcome.saved (some s), a2, a3 =>
    if s < min_bytes then
      match a2 with
      | DlOutcome.fail => none
      | DlOutcome.saved none =>
        match a3 with
        | DlOutcome.fail => none
        | DlOutcome.saved sz => sz
      | DlOutcome.saved (some s2) => if min_bytes ≤ s2 then some s2 else none
    else some s

/-- Number of `click_and_wait_download` attempts performed by
`download_report_pdf_with_checks` on the given outcomes. -/
def attemptsUsed : DlOutcome → DlOutcome → DlOutcome → Nat
  | DlOutcome.fail, _, _ => 1
  | DlOutcome.saved none, _, _ => 2
  | DlOutcome.saved (some s), a2, _ =>
    if s < min_bytes then
      match a2 with
      | DlOutcome.fail => 2
      | DlOutcome.saved none => 3
      | DlOutcome.saved (some _) => 2
    else 1

/-- Regex word character `\w` with ASCII semantics, used by the `\b`
boundaries in the date-token pattern of `_looks_like_dated_period`
(run.py line 439). -/
def isWordCh (c : Char) : Bool := c.isAlphanum || c == '_'

/-- Separator class (dash or slash) of the date-token pattern (run.py
line 439). -/
def isSepCh (c : Char) : Bool := c == '-' || c == '/'

/-- Length of the leading digit run and the remaining characters. -/
def takeDigits : List Char → Nat × List Char
  | [] => (0, [])
  | c :: t =>
    if c.isDigit then ((takeDigits t).1 + 1, (takeDigits t).2)
    else (0, c :: t)

/-- Match of the pattern "2-4 digits, separator, 1-2 digits, separator,
2-4 digits, word boundary" at the head of the list (the leading boundary is
checked by the caller).  Greedy counted
repetition with backtracking collapses to: the maximal digit runs must have
lengths in the stated ranges and the trailing boundary must hold.  Returns
the characters after the match. -/
def matchDateAt (l : List Char) : Option (List Char) :=
  let p1 := takeDigits l
  if 2 ≤ p1.1 ∧ p1.1 ≤ 4 then
    match p1.2 with
    | s1 :: r2 =>
      if isSepCh s1 then
        let p2 := takeDigits r2
        if 1 ≤ p2.1 ∧ p2.1 ≤ 2 then
          match p2.2 with
          | s2 :: r4 =>
            if isSepCh s2 then
              let p3 := takeDigits r4
              if 2 ≤ p3.1 ∧ p3.1 ≤ 4 then
                match p3.2 with
                | [] => some []
                | c :: r5 => if isWordCh c then none else some (c :: r5)
              else none
            else none
          | [] => none
        else none
      else none
    | [] => none
  else none

/-- Left-to-right non-overlapping scan of `re.findall` for the date-token
pattern.  The Boolean argument records whether the current position is at a
word boundary (previous character not a word character, or start of input);
the fuel argument bounds the recursion by the input length. -/
def countDatesAux : Nat → List Char → Bool → Nat
  | 0, _, _ => 0
  | _ + 1, [], _ => 0
  | fuel + 1, c :: t, bnd =>
    if bnd then
      match matchDateAt (c :: t) with
      | some rest => countDatesAux fuel rest false + 1
      | none => countDatesAux fuel t (!isWordCh c)
    else countDatesAux fuel t (!isWordCh c)

/-- Number of date-ish tokens found by the `re.findall` call of run.py
line 439 (boundary, 2-4 digits, separator, 1-2 digits, separator, 2-4
digits, boundary). -/
def countDates (l : List Char) : Nat := countDatesAux l.length l true

/-- Substring test (Python `in` on strings), over character lists. -/
def containsSub (needle : List Char) : List Char → Bool
  | [] => needle.isEmpty
  | c :: t => needle.isPrefixOf (c :: t) || containsSub needle t

/-- Embedding of `_looks_like_dated_period` (run.py lines 435-440): False on
empty text, False when the lowercased text does not contain "period", else
True exactly when at least two date-ish tokens are found. -/
def looks_like_dated_period (text : List Char) : Bool :=
  if text.isEmpty then false
  else if !containsSub "period".toList (text.map Char.toLower) then false
  else decide (2 ≤ countDates text)

/-- Page state observed at one polling tick of `show_report_and_wait`
(run.py lines 482-488): the Period text read by `_read_period_text`, the
result of `_has_data_rows`, and whether an explicit empty-result marker
("No records") is visible on the page.  The last field is carried to state
claims about it; the polling loop never reads it. -/
structure PageTick where
  period : List Char
  hasRows : Bool
  emptyMarker : Bool

/-- Bounded polling loop: test ticks k, k+1, ... for n steps, returning at
the first tick whose test holds, else False.  Shared shape of the loops at
run.py lines 482-488 and 305-316. -/
def pollLoop (f : Nat → Bool) : Nat → Nat → Bool
  | _, 0 => false
  | k, n + 1 => if f k then true else pollLoop f (k + 1) n

/-- Readiness polling of `show_report_and_wait` (run.py lines 482-489):
60 ticks, each succeeding when the Period text looks dated or data rows are
present; the function returns False when the window is exhausted.  The
click and the best-effort network wait that precede the loop do not affect
its result and are elided. -/
def show_report_and_wait (obs : Nat → PageTick) : Bool :=
  pollLoop (fun k => looks_like_dated_period (obs k).period || (obs k).hasRows) 0 60

/-- Outcome of one `set_status_and_download` run (run.py lines 696-737):
`ok` when a PDF was saved, otherwise the RuntimeError raised (readiness
never succeeded; Period line lacked dates; no valid PDF). -/
inductive RunOutcome
  | ok
  | showFailed
  | periodUndated
  | pdfFailed
deriving DecidableEq

/-- Embedding of the decision flow of `set_status_and_download` (run.py
lines 696-737): one `show_report_and_wait` attempt, one retry (re-applying
the captured dates) only when both captured dates are nonempty, a
RuntimeError when neither attempt succeeds, a RuntimeError when the Period
text then lacks dates, then `download_report_pdf_with_checks`, whose
failure is also a RuntimeError. -/
def set_status_and_download (hasCaptured : Bool) (obs1 obs2 : Nat → PageTick)
    (periodNow : List Char) (a1 a2 a3 : DlOutcome) : RunOutcome :=
  if show_report_and_wait obs1 || (hasCaptured && show_report_and_wait obs2) then
    if looks_like_dated_period periodNow then
      if download_report_pdf_with_checks a1 a2 a3 then RunOutcome.ok
      else RunOutcome.pdfFailed
    else RunOutcome.periodUndated
  else RunOutcome.showFailed

/-- Number of Show-Report submissions performed by one
`set_status_and_download` run: one, plus one retry when the first readiness
wait failed and captured dates exist (run.py lines 710-716).  All
submissions use the single date candidate captured at lines 675-676. -/
def submissionsUsed (obs1 obs2 : Nat → PageTick) (hasCaptured : Bool) : Nat :=
  if show_report_and_wait obs1 then 1
  else if hasCaptured then 2 else 1

/-- Inputs of one business run (one status value). -/
structure RunInput where
  hasCaptured : Bool
  obs1 : Nat → PageTick
  obs2 : Nat → PageTick
  periodNow : List Char
  a1 : DlOutcome
  a2 : DlOutcome
  a3 : DlOutcome

/-- Outcome of one business run. -/
def runOutcome (r : RunInput) : RunOutcome :=
  set_status_and_download r.hasCaptured r.obs1 r.obs2 r.periodNow r.a1 r.a2 r.a3

/-- Status values attempted by `site_login_and_download` (run.py lines
743-749): the DELAYED run is awaited first with no surrounding
try/except, so an exception in it propagates and the PENDING run is reached
only when the DELAYED run returned normally. -/
def site_login_flow (r1 r2 : RunInput) : List String :=
  if runOutcome r1 = RunOutcome.ok then ["DELAYED", "PENDING"]
  else ["DELAYED"]

/-- Process exit status (run.py lines 780-784): any exception escaping
`site_login_and_download` reaches `main` and the process exits 1; Telegram
errors are swallowed, so the exit is 0 exactly when both runs succeeded. -/
def processExit (o1 o2 : RunOutcome) : Nat :=
  if o1 = RunOutcome.ok then (if o2 = RunOutcome.ok then 0 else 1) else 1

/-- Environment of the dependent-field synchronization inside
`select_division` (run.py lines 296-316): the time at which a matching
network response would be observed, the time at which the option count of
the native select reaches the baseline, whether the wanted option text is
present (and selectable) at each 100 ms polling tick, and the outcome of
the `_bootstrap_select` fallback. -/
structure DivisionEnv where
  respTime : Nat
  optsTime : Nat
  optionTick : Nat → Bool
  bootstrapOk : Bool

/-- Time spent before polling begins: `wait_for_any_response` (timeout
7000 ms) and `wait_options_increase` (timeout 7000 ms) are combined with
`asyncio.gather` (run.py line 303), which completes when BOTH coroutines
have completed, i.e. after the later of the two capped completion times. -/
def division_gather_wait (e : DivisionEnv) : Nat :=
  max (min e.respTime 7000) (min e.optsTime 7000)

/-- The 50-iteration polling loop over the option text (run.py lines
305-316). -/
def division_poll (e : DivisionEnv) : Bool :=
  pollLoop e.optionTick 0 50

/-- Return value of `select_division` on the native-select branch: the two
gathered wait results are discarded; the value is True when the polling
loop finds the wanted option, else the `_bootstrap_select` fallback
decides (run.py lines 305-321). -/
def select_division (e : DivisionEnv) : Bool :=
  if division_poll e then true else e.bootstrapOk

/-- One candidate selector of `_native_select` (run.py lines 194-226):
whether `p.locator(sel).count()` is positive, and whether
`p.select_option` succeeds on it (by label, or by value after the label
attempt raised). -/
structure SelCandidate where
  present : Bool
  selOk : Bool
deriving DecidableEq

/-- Embedding of `_native_select` over its flattened candidate list (the
three label-based selectors, then the id-based, then the name-based ones,
in order): the loop returns the index of the first candidate that is
present AND on which setting the option succeeded; a present candidate on
which both select attempts raise is skipped; `none` models the final
`return False, None`.  The function is total: no exception escapes. -/
def native_select_result : List SelCandidate → Option Nat
  | [] => none
  | c :: t =>
    if c.present && c.selOk then some 0
    else (native_select_result t).map (fun i => i + 1)

/-- One pass of the select-all script of `select_nature_all` (run.py lines
341-348) over the selected-flags of the options: every flag becomes true,
and `changed` records whether some flag was actually flipped; input and
change events are dispatched exactly when `changed` is true. -/
def selectAllStep (opts : List Bool) : List Bool × Bool :=
  (opts.map (fun _ => true), opts.any (fun o => !o))

/-- Embedding of `select_nature_all` (run.py lines 323-358): when the
label/select lookup fails the script returns ok:false and touches nothing;
otherwise it applies `selectAllStep`.  Result: (ok, new selected-flags,
events dispatched). -/
def select_nature_all (found : Bool) (opts : List Bool) : Bool × List Bool × Bool :=
  if found then (true, (selectAllStep opts).1, (selectAllStep opts).2)
  else (false, opts, false)

/-- Number of selected options observed on a control after an assignment. -/
def observedSelectedCount (s : List Bool) : Nat :=
  (s.filter (fun b => b)).length

/-- Concrete Period text carrying two date tokens. -/
def periodGood : List Char := "Period: 26/07/2024 To 26/07/2024".toList

/-- Observation stream of a populated report: dated Period line and data
rows at every tick. -/
def obsGood : Nat → PageTick := fun _ => ⟨periodGood, true, false⟩

/-- Observation stream of an explicit empty result: the page shows a
"No records" marker, no data rows, and no dated Period line. -/
def obsNoRec : Nat → PageTick := fun _ => ⟨"No records found".toList, false, true⟩

/-- Download environment in which every strategy fails. -/
def envAllFail : DownloadEnv := ⟨false, false, false, false⟩

/-- A run whose readiness check never succeeds. -/
def rFail : RunInput := ⟨true, obsNoRec, obsNoRec, [], DlOutcome.fail, DlOutcome.fail, DlOutcome.fail⟩

/-- A run that succeeds end to end. -/
def rGood : RunInput :=
  ⟨true, obsGood, obsGood, periodGood, DlOutcome.saved (some 8000), DlOutcome.fail, DlOutcome.fail⟩

/-- Division environment where the network response arrives at 1000 ms, the
options populate at 5000 ms, the wanted option text never appears in the
polling loop, and the bootstrap fallback fails. -/
def divEnvRace : DivisionEnv := ⟨1000, 5000, fun _ => false, false⟩

/-- Candidate list whose first selector matches but cannot be set, while the
second matches and succeeds. -/
def candsSkip : List SelCandidate := [⟨true, false⟩, ⟨true, true⟩]

/-- Characterization of the bounded polling loop: it returns true exactly
when some tick inside the window satisfies the test. -/
theorem pollLoop_true_iff (f : Nat → Bool) :
    ∀ n k, pollLoop f k n = true ↔ ∃ j, j < n ∧ f (k + j) = true := by
  intro n
  induction n with
  | zero =>
    intro k
    simp [pollLoop]
  | succ n ih =>
    intro k
    simp only [pollLoop]
    by_cases h : f k = true
    · rw [if_pos h]
      constructor
      · intro _
        exact ⟨0, Nat.succ_pos n, by simpa using h⟩
      · intro _
        rfl
    · rw [if_neg h, ih (k + 1)]
      constructor
      · rintro ⟨j, hj, hf⟩
        refine ⟨j + 1, by omega, ?_⟩
        rw [show k + (j + 1) = k + 1 + j by omega]
        exact hf
      · rintro ⟨j, hj, hf⟩
        cases j with
        | zero =>
          rw [Nat.add_zero] at hf
          exact absurd hf h
        | succ j =>
          refine ⟨j, by omega, ?_⟩
          rw [show k + 1 + j = k + (j + 1) by omega]
          exact hf

/-- A readiness wait over a stream that never shows data rows nor a dated
Period line returns false. -/
theorem show_report_false_of_never (obs : Nat → PageTick)
    (hr : ∀ k, (obs k).hasRows = false)
    (hp : ∀ k, looks_like_dated_period (obs k).period = false) :
    show_report_and_wait obs = false := by
  rw [show_report_and_wait, Bool.eq_false_iff]
  intro hT
  obtain ⟨j, hj, hf⟩ := (pollLoop_true_iff _ 60 0).mp hT
  simp only [Nat.zero_add, Bool.or_eq_true] at hf
  rcases hf with h | h
  · rw [hp j] at h
    exact Bool.noConfusion h
  · rw [hr j] at h
    exact Bool.noConfusion h

/-- Selecting every option of a mapped-true list observes as many selected
options as the control has. -/
theorem filter_length_map_true (l : List Bool) :
    ((l.map (fun _ => true)).filter (fun b => b)).length = l.length := by
  induction l with
  | nil => rfl
  | cons a t ih => simpa [List.filter] using ih

/-- A list whose flags are all already true yields no flips. -/
theorem any_not_map_true (l : List Bool) :
    ((l.map (fun _ => true)).any (fun o => !o)) = false := by
  induction l with
  | nil => rfl
  | cons a t ih => simpa using ih

/-- C6: after submission, the readiness check of `show_report_and_wait`
reports success exactly when, at some tick of its 60-tick polling window,
data rows are present in the report grid or the Period text is a
well-formed dated period (contains the word period and at least two date
tokens, per `_looks_like_dated_period`); when neither is observed within
the window it reports failure. -/
theorem c6_readiness_iff (obs : Nat → PageTick) :
    show_report_and_wait obs = true ↔
      ∃ k, k < 60 ∧
        ((obs k).hasRows = true ∨ looks_like_dated_period (obs k).period = true) := by
  rw [show_report_and_wait, pollLoop_true_iff]
  constructor
  · rintro ⟨j, hj, hf⟩
    simp only [Nat.zero_add, Bool.or_eq_true] at hf
    exact ⟨j, hj, hf.symm⟩
  · rintro ⟨k, hk, hf⟩
    refine ⟨k, hk, ?_⟩
    simp only [Nat.zero_add, Bool.or_eq_true]
    exact hf.symm

/-- C6 witness: on a stream whose first tick already has data rows the
readiness check succeeds. -/
theorem c6_readiness_iff_witness : show_report_and_wait obsGood = true :=
  (c6_readiness_iff obsGood).mpr ⟨0, by omega, Or.inl rfl⟩

/-- C9: applying the SelectAll assignment of `select_nature_all` to a
native control with K options reports ok and results in all K options being
selected: the observed selection has length K and every flag is true. -/
theorem c9_select_all_count (opts : List Bool) :
    (select_nature_all true opts).1 = true ∧
    observedSelectedCount (select_nature_all true opts).2.1 = opts.length ∧
    ∀ b ∈ (select_nature_all true opts).2.1, b = true := by
  refine ⟨rfl, ?_, ?_⟩
  · simpa [select_nature_all, selectAllStep, observedSelectedCount] using
      filter_length_map_true opts
  · intro b hb
    simp only [select_nature_all, if_pos, selectAllStep, List.mem_map] at hb
    obtain ⟨a, _, ha⟩ := hb
    exact ha.symm

/-- C9 witness: a three-option control with one option initially selected
ends with all three options selected. -/
theorem c9_select_all_count_witness :
    (select_nature_all true [false, true, false]).1 = true ∧
    observedSelectedCount (select_nature_all true [false, true, false]).2.1 = 3 :=
  ⟨(c9_select_all_count [false, true, false]).1,
   (c9_select_all_count [false, true, false]).2.1⟩

/-- C10: the SelectAll operation of `select_nature_all` is idempotent:
applying it again right after an application leaves the selection state
unchanged and dispatches no input or change events, because the script
dispatches events only when some selected flag was actually flipped (and on
the first application it dispatches events exactly when some option was
unselected). -/
theorem c10_select_all_idempotent (opts : List Bool) :
    (select_nature_all true ((select_nature_all true opts).2.1)).2.1 =
      (select_nature_all true opts).2.1 ∧
    (select_nature_all true ((select_nature_all true opts).2.1)).2.2 = false ∧
    ((select_nature_all true opts).2.2 = true ↔ ∃ b ∈ opts, b = false) := by
  refine ⟨?_, ?_, ?_⟩
  · simp only [select_nature_all, if_pos, selectAllStep, List.map_map]
    rfl
  · simpa [select_nature_all, selectAllStep] using
      any_not_map_true opts
  · simp only [select_nature_all, if_pos, selectAllStep, List.any_eq_true,
      Bool.not_eq_true']

/-- C10 witness: on a two-option control, the second application changes
nothing and dispatches no events, while the first application did dispatch
events. -/
theorem c10_select_all_idempotent_witness :
    (select_nature_all true ((select_nature_all true [false, true]).2.1)).2.1 =
      (select_nature_all true [false, true]).2.1 ∧
    (select_nature_all true ((select_nature_all true [false, true]).2.1)).2.2 = false ∧
    (select_nature_all true [false, true]).2.2 = true :=
  ⟨(c10_select_all_idempotent [false, true]).1,
   (c10_select_all_idempotent [false, true]).2.1,
   (c10_select_all_idempotent [false, true]).2.2.mpr ⟨false, by simp, rfl⟩⟩

/-- C1 counterexample: the acquisition cascade of the code consists of
DirectDownload and PopupWindow only; when both fail (no download event, no
popup), `click_and_wait_download` returns False on every attempt,
`download_report_pdf_with_checks` returns False, and the surrounding run
raises — so a run that reaches acquisition can end with no artifact:
AcquisitionExhausted is reachable, contrary to the claim that
ScreenshotRender succeeds unconditionally (no such strategy exists in the
code). -/
theorem c1_exhaustion_reachable :
    click_and_wait_download envAllFail = false ∧
    download_report_pdf_with_checks (attemptOutcome envAllFail none)
      (attemptOutcome envAllFail none) (attemptOutcome envAllFail none) = false ∧
    set_status_and_download true obsGood obsGood periodGood
      (attemptOutcome envAllFail none) (attemptOutcome envAllFail none)
      (attemptOutcome envAllFail none) = RunOutcome.pdfFailed := by
  decide

/-- C1 amended: the acquisition step attempts only DirectDownload followed
by PopupWindow, in that order, the popup strategy being attempted exactly
when the direct strategy failed; NetworkReplay, DomRender and
ScreenshotRender are never attempted, and the call fails exactly when the
direct path failed and the popup path did not produce a saved download — so
acquisition exhaustion is a reachable outcome that aborts the run. -/
theorem c1_two_strategy_cascade (e : DownloadEnv) :
    (strategiesAttempted e = [Strategy.DirectDownload] ∨
      strategiesAttempted e = [Strategy.DirectDownload, Strategy.PopupWindow]) ∧
    (strategiesAttempted e = [Strategy.DirectDownload, Strategy.PopupWindow] ↔
      e.directOk = false) ∧
    Strategy.NetworkReplay ∉ strategiesAttempted e ∧
    Strategy.DomRender ∉ strategiesAttempted e ∧
    Strategy.ScreenshotRender ∉ strategiesAttempted e ∧
    (click_and_wait_download e = false ↔
      (e.directOk = false ∧ (e.popupOpens && e.popupHasLink && e.popupDlOk) = false)) := by
  obtain ⟨d, po, pl, pd⟩ := e
  cases d <;> cases po <;> cases pl <;> cases pd <;> decide

/-- C1 amended witness: with every strategy failing, the popup strategy was
attempted after the direct one and the call reports failure. -/
theorem c1_two_strategy_cascade_witness :
    strategiesAttempted envAllFail = [Strategy.DirectDownload, Strategy.PopupWindow] ∧
    Strategy.ScreenshotRender ∉ strategiesAttempted envAllFail ∧
    click_and_wait_download envAllFail = false :=
  ⟨(c1_two_strategy_cascade envAllFail).2.1.mpr rfl,
   (c1_two_strategy_cascade envAllFail).2.2.2.2.1,
   (c1_two_strategy_cascade envAllFail).2.2.2.2.2.mpr (by decide)⟩

/-- C5 counterexample: when the first size check raises FileNotFoundError
(first attempt reported a save but no file was found), the retry download
is accepted WITHOUT a size check (run.py lines 534-538): here the retry
leaves a 100-byte file, far below the 7000-byte threshold, yet
`download_report_pdf_with_checks` returns True — a file smaller than the
threshold is accepted from a download strategy (and no ScreenshotRender
strategy exists to excuse it). -/
theorem c5_small_accepted_counterexample :
    download_report_pdf_with_checks (DlOutcome.saved none)
      (DlOutcome.saved (some 100)) DlOutcome.fail = true ∧
    finalSize (DlOutcome.saved none) (DlOutcome.saved (some 100)) DlOutcome.fail =
      some 100 ∧
    100 < min_bytes := by
  decide

/-- C5 amended: a first download whose file is below the threshold always
triggers a further attempt, and — provided no size check raises
FileNotFoundError — an accepting cycle always ends with a file of size at
least `min_bytes`; only the FileNotFoundError retry path can accept an
unchecked (possibly undersized) file. -/
theorem c5_threshold_gating (a1 a2 a3 : DlOutcome) :
    (∀ s, a1 = DlOutcome.saved (some s) → s < min_bytes →
      2 ≤ attemptsUsed a1 a2 a3) ∧
    (a1 ≠ DlOutcome.saved none → a2 ≠ DlOutcome.saved none →
      download_report_pdf_with_checks a1 a2 a3 = true →
      ∃ s, finalSize a1 a2 a3 = some s ∧ min_bytes ≤ s) := by
  constructor
  · intro s hs hlt
    subst hs
    cases a2 with
    | fail => simp [attemptsUsed, hlt]
    | saved o =>
      cases o with
      | none => simp [attemptsUsed, hlt]
      | some s2 => simp [attemptsUsed, hlt]
  · intro h1 h2 hdl
    cases a1 with
    | fail => simp [download_report_pdf_with_checks] at hdl
    | saved o1 =>
      cases o1 with
      | none => exact absurd rfl h1
      | some s =>
        by_cases hs : s < min_bytes
        · cases a2 with
          | fail => simp [download_report_pdf_with_checks, hs] at hdl
          | saved o2 =>
            cases o2 with
            | none => exact absurd rfl h2
            | some s2 =>
              simp only [download_report_pdf_with_checks] at hdl
              rw [if_pos hs] at hdl
              have hle : min_bytes ≤ s2 := of_decide_eq_true hdl
              refine ⟨s2, ?_, hle⟩
              simp only [finalSize]
              rw [if_pos hs, if_pos hle]
        · refine ⟨s, ?_, Nat.not_lt.mp hs⟩
          simp only [finalSize]
          rw [if_neg hs]

/-- C5 amended witness: a 100-byte first file forces a second attempt, and
an 8000-byte retry is accepted with its size at least the threshold. -/
theorem c5_threshold_gating_witness :
    2 ≤ attemptsUsed (DlOutcome.saved (some 100)) (DlOutcome.saved (some 8000))
      DlOutcome.fail ∧
    ∃ s, finalSize (DlOutcome.saved (some 100)) (DlOutcome.saved (some 8000))
      DlOutcome.fail = some s ∧ min_bytes ≤ s :=
  ⟨(c5_threshold_gating (DlOutcome.saved (some 100)) (DlOutcome.saved (some 8000))
      DlOutcome.fail).1 100 rfl (by decide),
   (c5_threshold_gating (DlOutcome.saved (some 100)) (DlOutcome.saved (some 8000))
      DlOutcome.fail).2 (by decide) (by decide) (by decide)⟩

/-- C2 counterexample: a run whose report page shows the explicit
"No records" marker but no data rows and no dated Period line is NOT
accepted: `show_report_and_wait` never consults the marker, both readiness
attempts fail, `set_status_and_download` raises (showFailed) even though a
valid download was available, and the process exits 1 — contradicting the
claim that such a run terminates accepted with exit status 0. -/
theorem c2_empty_marker_counterexample :
    (obsNoRec 0).emptyMarker = true ∧
    (obsNoRec 0).hasRows = false ∧
    set_status_and_download true obsNoRec obsNoRec []
      (DlOutcome.saved (some 8000)) DlOutcome.fail DlOutcome.fail =
      RunOutcome.showFailed ∧
    processExit RunOutcome.showFailed RunOutcome.ok = 1 := by
  decide

/-- C2 amended: the code has no empty-marker acceptance path: whenever
neither data rows nor a dated Period line is ever observed — in particular
on a pure "No records" page — the run raises a readiness error and the
process exits non-zero; an empty result is accepted (exit 0) only when the
page still carries a dated Period line or data rows. -/
theorem c2_no_marker_acceptance (hc : Bool) (obs1 obs2 : Nat → PageTick)
    (p : List Char) (a1 a2 a3 : DlOutcome)
    (h1r : ∀ k, (obs1 k).hasRows = false)
    (h1p : ∀ k, looks_like_dated_period (obs1 k).period = false)
    (h2r : ∀ k, (obs2 k).hasRows = false)
    (h2p : ∀ k, looks_like_dated_period (obs2 k).period = false) :
    set_status_and_download hc obs1 obs2 p a1 a2 a3 = RunOutcome.showFailed ∧
    ∀ o2, processExit (set_status_and_download hc obs1 obs2 p a1 a2 a3) o2 = 1 := by
  have hw1 := show_report_false_of_never obs1 h1r h1p
  have hw2 := show_report_false_of_never obs2 h2r h2p
  have hof : set_status_and_download hc obs1 obs2 p a1 a2 a3 =
      RunOutcome.showFailed := by
    rw [set_status_and_download, hw1, hw2]
    simp
  exact ⟨hof, fun o2 => by rw [hof]; rfl⟩

/-- C2 amended witness: on the concrete "No records" page the run fails and
the process exit status is 1. -/
theorem c2_no_marker_acceptance_witness :
    set_status_and_download true obsNoRec obsNoRec [] DlOutcome.fail
      DlOutcome.fail DlOutcome.fail = RunOutcome.showFailed ∧
    processExit (set_status_and_download true obsNoRec obsNoRec []
      DlOutcome.fail DlOutcome.fail DlOutcome.fail) RunOutcome.ok = 1 :=
  ⟨(c2_no_marker_acceptance true obsNoRec obsNoRec [] DlOutcome.fail
      DlOutcome.fail DlOutcome.fail (fun _ => rfl) (fun _ => rfl)
      (fun _ => rfl) (fun _ => rfl)).1,
   (c2_no_marker_acceptance true obsNoRec obsNoRec [] DlOutcome.fail
      DlOutcome.fail DlOutcome.fail (fun _ => rfl) (fun _ => rfl)
      (fun _ => rfl) (fun _ => rfl)).2 RunOutcome.ok⟩

/-- C3 counterexample: `site_login_and_download` awaits the DELAYED run
with no surrounding try/except, so a run-level failure of the DELAYED run
propagates and the PENDING run is never attempted — contradicting the claim
that the sibling run is still attempted. -/
theorem c3_pending_not_attempted :
    runOutcome rFail = RunOutcome.showFailed ∧
    runOutcome rGood = RunOutcome.ok ∧
    site_login_flow rFail rGood = ["DELAYED"] ∧
    "PENDING" ∉ site_login_flow rFail rGood := by
  decide

/-- C3 amended: the two business runs execute sequentially and the PENDING
run is attempted exactly when the DELAYED run succeeded; a DELAYED failure
aborts the whole flow (only DELAYED attempted) and makes the process exit
non-zero. -/
theorem c3_sequential_runs (r1 r2 : RunInput) :
    ("PENDING" ∈ site_login_flow r1 r2 ↔ runOutcome r1 = RunOutcome.ok) ∧
    (runOutcome r1 ≠ RunOutcome.ok →
      site_login_flow r1 r2 = ["DELAYED"] ∧
      processExit (runOutcome r1) (runOutcome r2) = 1) := by
  constructor
  · by_cases h : runOutcome r1 = RunOutcome.ok
    · rw [site_login_flow, if_pos h]
      constructor
      · intro _
        exact h
      · intro _
        decide
    · rw [site_login_flow, if_neg h]
      constructor
      · intro hm
        exact absurd hm (by decide)
      · intro hk
        exact absurd hk h
  · intro h
    exact ⟨by rw [site_login_flow, if_neg h], by rw [processExit, if_neg h]⟩

/-- C3 amended witness: a failing DELAYED run leaves only DELAYED attempted
and exit status 1, even though the PENDING inputs would have succeeded. -/
theorem c3_sequential_runs_witness :
    site_login_flow rFail rGood = ["DELAYED"] ∧
    processExit (runOutcome rFail) (runOutcome rGood) = 1 :=
  (c3_sequential_runs rFail rGood).2 (by decide)

/-- C7 counterexample: the code has exactly one date-format candidate — the
default dates captured at page open (run.py lines 675-676) — so the claimed
bound of one submission per candidate would allow one submission; yet the
run performs two submissions with that single candidate, and it resubmits
even though the first readiness window observed the explicit empty marker
(the marker is never consulted). -/
theorem c7_double_submission_counterexample :
    submissionsUsed obsNoRec obsNoRec true = 2 ∧
    (obsNoRec 0).emptyMarker = true ∧
    (obsNoRec 0).hasRows = false := by
  decide

/-- C7 amended: each run submits at most twice — once, plus one retry with
the same single captured date candidate when captured dates exist — and
submits exactly once when the first readiness wait succeeds; the run fails
with a readiness error exactly when every performed submission failed the
readiness check (data rows or dated Period line; the empty marker plays no
role). -/
theorem c7_single_candidate_retry (obs1 obs2 : Nat → PageTick) (hc : Bool)
    (p : List Char) (a1 a2 a3 : DlOutcome) :
    submissionsUsed obs1 obs2 hc ≤ 2 ∧
    (show_report_and_wait obs1 = true → submissionsUsed obs1 obs2 hc = 1) ∧
    (set_status_and_download hc obs1 obs2 p a1 a2 a3 = RunOutcome.showFailed ↔
      (show_report_and_wait obs1 || (hc && show_report_and_wait obs2)) = false) := by
  refine ⟨?_, ?_, ?_⟩
  · rw [submissionsUsed]
    split
    · omega
    · split
      · omega
      · omega
  · intro h
    rw [submissionsUsed, if_pos h]
  · rw [set_status_and_download]
    by_cases h : (show_report_and_wait obs1 || (hc && show_report_and_wait obs2)) = true
    · rw [if_pos h]
      constructor
      · intro hx
        exfalso
        by_cases hp : looks_like_dated_period p = true
        · rw [if_pos hp] at hx
          by_cases hd : download_report_pdf_with_checks a1 a2 a3 = true
          · rw [if_pos hd] at hx
            exact RunOutcome.noConfusion hx
          · rw [if_neg hd] at hx
            exact RunOutcome.noConfusion hx
        · rw [if_neg hp] at hx
          exact RunOutcome.noConfusion hx
      · intro hx
        rw [hx] at h
        exact absurd h (by decide)
    · rw [if_neg h]
      have hf : (show_report_and_wait obs1 ||
          (hc && show_report_and_wait obs2)) = false := by
        simpa using h
      exact ⟨fun _ => hf, fun _ => rfl⟩

/-- C7 amended witness: a successful first readiness wait means exactly one
submission, and the failing stream stays within the two-submission bound. -/
theorem c7_single_candidate_retry_witness :
    submissionsUsed obsGood obsGood true = 1 ∧
    submissionsUsed obsNoRec obsNoRec true ≤ 2 :=
  ⟨(c7_single_candidate_retry obsGood obsGood true periodGood DlOutcome.fail
      DlOutcome.fail DlOutcome.fail).2.1 (by decide),
   (c7_single_candidate_retry obsNoRec obsNoRec true [] DlOutcome.fail
      DlOutcome.fail DlOutcome.fail).1⟩

/-- C4 counterexample: the dependent-field synchronizer of
`select_division` is not a first-condition race: with the matching network
response observed at 1000 ms and the option count reaching its baseline at
5000 ms, the `asyncio.gather` call waits 5000 ms (the later completion),
not 1000 ms (the earlier); and although condition (a) was satisfied well
inside the timeout, the function still returns false when the wanted option
text never appears, because the gathered results are discarded and a
separate polling loop (plus the bootstrap fallback) determines the return
value. -/
theorem c4_gather_not_race_counterexample :
    division_gather_wait divEnvRace = 5000 ∧
    min (min divEnvRace.respTime 7000) (min divEnvRace.optsTime 7000) = 1000 ∧
    divEnvRace.respTime < 7000 ∧
    select_division divEnvRace = false := by
  decide

/-- C4 amended: the synchronizer runs its two waits concurrently but
combines them with `asyncio.gather`, so it waits for BOTH to complete or
time out (the pre-poll delay is at least each capped completion time and at
most the 7000 ms timeout); the Boolean results of the race are discarded —
the return value is independent of the network-response condition — and is
true exactly when the wanted option text is found by the subsequent
50-tick polling loop or the bootstrap fallback succeeds. -/
theorem c4_gather_then_poll (e : DivisionEnv) :
    min e.respTime 7000 ≤ division_gather_wait e ∧
    min e.optsTime 7000 ≤ division_gather_wait e ∧
    division_gather_wait e ≤ 7000 ∧
    (select_division e = true ↔
      ((∃ k, k < 50 ∧ e.optionTick k = true) ∨ e.bootstrapOk = true)) ∧
    (∀ r, select_division ⟨r, e.optsTime, e.optionTick, e.bootstrapOk⟩ =
      select_division e) := by
  refine ⟨le_max_left _ _, le_max_right _ _,
    max_le (min_le_right _ _) (min_le_right _ _), ?_, fun r => rfl⟩
  rw [select_division]
  by_cases h : division_poll e = true
  · rw [if_pos h]
    constructor
    · intro _
      left
      obtain ⟨j, hj, hf⟩ := (pollLoop_true_iff e.optionTick 50 0).mp h
      exact ⟨j, hj, by simpa using hf⟩
    · intro _
      rfl
  · rw [if_neg h]
    constructor
    · intro hb
      right
      exact hb
    · rintro (⟨k, hk, hf⟩ | hb)
      · exfalso
        apply h
        rw [division_poll, pollLoop_true_iff]
        exact ⟨k, hk, by simpa using hf⟩
      · exact hb

/-- C4 amended witness: on the concrete environment the pre-poll delay
dominates the capped response time, and perturbing the response time leaves
the return value unchanged. -/
theorem c4_gather_then_poll_witness :
    min divEnvRace.respTime 7000 ≤ division_gather_wait divEnvRace ∧
    select_division ⟨9999, divEnvRace.optsTime, divEnvRace.optionTick,
      divEnvRace.bootstrapOk⟩ = select_division divEnvRace :=
  ⟨(c4_gather_then_poll divEnvRace).1,
   (c4_gather_then_poll divEnvRace).2.2.2.2 9999⟩

/-- C8 counterexample: `_native_select` does not commit to the first
candidate that matches: on `candsSkip` the first candidate is present
(locator count positive) but its option assignment fails, and the loop
moves on and returns the SECOND candidate instead of committing to the
first — resolution is first-successful-assignment, not
first-matching-element. -/
theorem c8_skips_failing_match_counterexample :
    native_select_result candsSkip = some 1 ∧
    candsSkip.head? = some ⟨true, false⟩ := by
  decide

/-- C8 amended: the locator tries its candidate selectors in order and
returns the index of the first candidate that both matches (positive
locator count) and on which the option assignment succeeds, skipping
matching candidates whose assignment fails; when no candidate succeeds it
returns the NotFound value (the function is total — no exception escapes). -/
theorem c8_first_success_commit (cands : List SelCandidate) :
    (native_select_result cands = none ↔
      ∀ c ∈ cands, (c.present && c.selOk) = false) ∧
    (∀ i, native_select_result cands = some i →
      ∃ h : i < cands.length,
        ((cands.get ⟨i, h⟩).present && (cands.get ⟨i, h⟩).selOk) = true ∧
        ∀ c ∈ cands.take i, (c.present && c.selOk) = false) := by
  induction cands with
  | nil =>
    constructor
    · simp [native_select_result]
    · intro i hi
      simp [native_select_result] at hi
  | cons c t ih =>
    by_cases hc : (c.present && c.selOk) = true
    · constructor
      · rw [native_select_result, if_pos hc]
        constructor
        · intro hn
          exact Option.noConfusion hn
        · intro hall
          have h2 := hall c (List.mem_cons_self c t)
          rw [hc] at h2
          exact Bool.noConfusion h2
      · intro i hi
        rw [native_select_result, if_pos hc] at hi
        injection hi with h0
        subst h0
        refine ⟨Nat.succ_pos _, hc, ?_⟩
        intro x hx
        simp at hx
    · constructor
      · rw [native_select_result, if_neg hc, Option.map_eq_none', ih.1,
          List.forall_mem_cons]
        have hcf : (c.present && c.selOk) = false := by
          simpa using hc
        constructor
        · intro hall
          exact ⟨hcf, hall⟩
        · rintro ⟨_, hall⟩
          exact hall
      · intro i hi
        rw [native_select_result, if_neg hc] at hi
        rcases Option.map_eq_some'.mp hi with ⟨j, hj, hij⟩
        obtain ⟨hlt, hget, hpre⟩ := ih.2 j hj
        subst hij
        refine ⟨Nat.succ_lt_succ hlt, hget, ?_⟩
        intro x hx
        rw [List.take_succ_cons] at hx
        rcases List.mem_cons.mp hx with h1 | h2
        · rw [h1]
          simpa using hc
        · exact hpre x h2

/-- C8 amended witness: on `candsSkip` the returned index 1 is in range,
succeeds, and every earlier candidate failed its assignment. -/
theorem c8_first_success_commit_witness :
    ∃ h : 1 < candsSkip.length,
      ((candsSkip.get ⟨1, h⟩).present && (candsSkip.get ⟨1, h⟩).selOk) = true ∧
      ∀ c ∈ candsSkip.take 1, (c.present && c.selOk) = false :=
  (c8_first_success_commit candsSkip).2 1 (by decide)

end DailyReport
